import Mathlib

/-!
Shallow embedding of `src/controller.rs` of the metrics_controller crate.

The file under `src/` defines `EventInfo` (the spec's EventContext) and
`MetricsController`.  The collaborators `events::Events` (the spec's
SharedState) and `metrics_worker::MetricsWorker` (the spec's Worker) are
code of this repository that is not under `src/`; they are modelled from
the spec where a claim needs them.

Rust's `Arc<Mutex<Events>>` is embedded as an address (`Nat`) into an
explicit store of `Events` cells; `Arc::clone` copies the address, so two
handles with the same address share the one cell.  Side effects performed
by the code (logging, persistence reads/writes, transmission) are made
visible as an explicit effect trace returned by each operation.
-/

namespace MetricsControllerSpec

/-- `EventInfo` from `src/controller.rs` lines 12-23: ten owned strings. -/
structure EventInfo where
  locale : String
  os : String
  os_version : String
  device : String
  arch : String
  app_name : String
  app_version : String
  app_update_channel : String
  app_build_id : String
  app_platform : String
  deriving DecidableEq, Repr

/-- `EventInfo::new` from `src/controller.rs` lines 26-43. The parameter
order is the source's: `(locale, os, os_version, device, app_name,
app_version, app_update_channel, app_build_id, app_platform, arch)`. -/
def EventInfo.new (locale os os_version device app_name app_version
    app_update_channel app_build_id app_platform arch : String) : EventInfo :=
  { locale := locale
    os := os
    os_version := os_version
    device := device
    app_name := app_name
    app_version := app_version
    app_update_channel := app_update_channel
    app_build_id := app_build_id
    app_platform := app_platform
    arch := arch }

/-- `EventInfo::clone` from `src/controller.rs` lines 45-58: each `String`
field is deep-copied via `String::clone`, which in a value model is the
string itself. -/
def EventInfo.clone (self : EventInfo) : EventInfo :=
  { locale := self.locale
    os := self.os
    os_version := self.os_version
    device := self.device
    app_name := self.app_name
    app_version := self.app_version
    app_update_channel := self.app_update_channel
    app_build_id := self.app_build_id
    app_platform := self.app_platform
    arch := self.arch }

/-- Modelled from the spec: `events::Events` (the spec's SharedState,
section 3) is not under `src/`.  It holds the current EventContext and the
in-memory histogram set; the histogram set is an external collaborator
type opaque to this core, abstracted here as a list of counts. -/
structure Events where
  event_info : EventInfo
  histograms : List Nat
  deriving DecidableEq, Repr

/-- Modelled from the spec: `Events::new(event_info)` stores the freshly
built EventContext; the in-memory histogram set starts empty. -/
def Events.new (event_info : EventInfo) : Events :=
  { event_info := event_info, histograms := [] }

/-- The store backing `Arc<Mutex<Events>>` cells: an address is an index
into the list of cells. -/
structure Store where
  cells : List Events
  deriving DecidableEq, Repr

/-- Allocate a fresh cell (what `Arc::new(Mutex::new(e))` does), returning
its address. -/
def Store.alloc (s : Store) (e : Events) : Nat × Store :=
  (s.cells.length, ⟨s.cells ++ [e]⟩)

/-- Read the cell at an address (locking the mutex and reading). -/
def Store.read (s : Store) (a : Nat) : Option Events :=
  s.cells[a]?

/-- Overwrite the cell at an address (locking the mutex and mutating). -/
def Store.write (s : Store) (a : Nat) (e : Events) : Store :=
  ⟨s.cells.set a e⟩

/-- Externally visible side effects of the core, per spec section 6:
logging, the persistence collaborator's read/write, and transmission. -/
inductive Effect where
  | logInfo (msg : String)
  | persistRead
  | persistWrite
  | transmitSend
  deriving DecidableEq, Repr

/-- Worker lifecycle states, spec section 4.3:
`Idle → Running → Stopping → Stopped`. -/
inductive WorkerStatus where
  | Idle
  | Running
  | Stopping
  | Stopped
  deriving DecidableEq, Repr

/-- Modelled from the spec: `metrics_worker::MetricsWorker` is not under
`src/`.  It holds a shared (not owned) handle to the Events container and
its lifecycle status. -/
structure MetricsWorker where
  events : Nat
  status : WorkerStatus
  deriving DecidableEq, Repr

/-- Modelled from the spec (section 4.3): `MetricsWorker::new(shared_state)`
binds to an existing SharedState handle and starts no background activity:
the worker is constructed in the `Idle` state. -/
def MetricsWorker.new (events : Nat) : MetricsWorker :=
  { events := events, status := WorkerStatus.Idle }

/-- Modelled from the spec (sections 4.3 and 4.4): `quit()` requests
termination and joins the worker thread; it is total (safe to call in any
state), a no-op on a worker that never started, and leaves a started
worker `Stopped`. -/
def MetricsWorker.quit (self : MetricsWorker) : MetricsWorker :=
  match self.status with
  | WorkerStatus.Idle => self
  | WorkerStatus.Running => { self with status := WorkerStatus.Stopped }
  | WorkerStatus.Stopping => { self with status := WorkerStatus.Stopped }
  | WorkerStatus.Stopped => self

/-- `MetricsController` from `src/controller.rs` lines 62-67: an
`Arc<Mutex<Events>>` handle `ev` and a `MetricsWorker` `mw`. -/
structure MetricsController where
  ev : Nat
  mw : MetricsWorker
  deriving DecidableEq, Repr

/-- `MetricsController::new` from `src/controller.rs` lines 94-116.
It logs "Creating Controller", builds an `EventInfo` by passing its
arguments to `EventInfo::new` in exactly the source's order
`(locale, device, app_name, app_version, app_update_channel, app_build_id,
app_platform, arch, os, os_version)`, wraps `Events::new(event_info)` in a
fresh shared cell, and hands one handle to the controller and a clone of
the handle (the same address) to `MetricsWorker::new`. -/
def MetricsController.new (app_name app_version app_update_channel
    app_build_id app_platform locale device arch os os_version : String)
    (s : Store) : MetricsController × Store × List Effect :=
  let event_info := EventInfo.new locale device app_name app_version
    app_update_channel app_build_id app_platform arch os os_version
  let (addr, s') := s.alloc (Events.new event_info)
  ({ ev := addr, mw := MetricsWorker.new addr }, s',
    [Effect.logInfo "Creating Controller"])

/-- `MetricsController::start_metrics` from `src/controller.rs` lines
122-134: the body is comments only and returns `true`; no state is touched
and no effect is performed. -/
def MetricsController.start_metrics (self : MetricsController) (s : Store) :
    Bool × MetricsController × Store × List Effect :=
  (true, self, s, [])

/-- `MetricsController::stop_collecting` from `src/controller.rs` lines
138-142: the body is exactly `self.mw.quit()`; the shared Events cell (and
so the collected histogram data) is not touched. -/
def MetricsController.stop_collecting (self : MetricsController) (s : Store) :
    MetricsController × Store × List Effect :=
  ({ self with mw := self.mw.quit }, s, [])

/-- The operations of the public caller-facing interface that take and
return controller state (spec section 6): `start_metrics` and
`stop_collecting`. -/
inductive ApiOp where
  | start
  | stop
  deriving DecidableEq, Repr

/-- Run a sequence of public-interface operations against a controller and
its store, threading the state and discarding results and effects. -/
def runOps : MetricsController → Store → List ApiOp → MetricsController × Store
  | mc, s, [] => (mc, s)
  | mc, s, ApiOp.start :: ops =>
      let r := mc.start_metrics s
      runOps r.2.1 r.2.2.1 ops
  | mc, s, ApiOp.stop :: ops =>
      let r := mc.stop_collecting s
      runOps r.1 r.2.1 ops

/-- Neither `start_metrics` nor `stop_collecting` touches the store or the
controller's handle address, so any operation sequence preserves both. -/
theorem runOps_preserves (ops : List ApiOp) :
    ∀ (mc : MetricsController) (s : Store),
      (runOps mc s ops).2 = s ∧ (runOps mc s ops).1.ev = mc.ev := by
  induction ops with
  | nil => intro mc s; exact ⟨rfl, rfl⟩
  | cons op ops ih =>
      intro mc s
      cases op with
      | start => exact ih mc s
      | stop => exact ih { mc with mw := mc.mw.quit } s

/-- Reading a freshly allocated cell at its returned address yields the
allocated value. -/
theorem Store.read_alloc (s : Store) (e : Events) :
    ((s.alloc e).2).read (s.alloc e).1 = some e := by
  simp [Store.alloc, Store.read]

/-- Writing a valid address and reading it back yields the written value. -/
theorem Store.read_write_self (s : Store) (a : Nat) (e : Events)
    (h : a < s.cells.length) : (s.write a e).read a = some e := by
  simp [Store.write, Store.read, List.getElem?_set_eq_of_lt, h]

/-- C1: FAILS on the code. `MetricsController::new` passes its arguments
to `EventInfo::new` positionally in the order `(locale, device, app_name,
app_version, app_update_channel, app_build_id, app_platform, arch, os,
os_version)` while `EventInfo::new` declares `(locale, os, os_version,
device, app_name, app_version, app_update_channel, app_build_id,
app_platform, arch)`, so nine of the ten fields receive a differently
named argument.  At the repository's own test-fixture input, the stored
EventContext has `os = "linux"` (the device argument) instead of
`"raspberry-pi"` (the os argument), and differs from the field-by-field
correspondence the claim states. -/
theorem C1_new_scrambles_event_info_fields :
    (((MetricsController.new "app" "1.0" "default" "20160305" "rust"
        "en-us" "linux" "1.2.3" "raspberry-pi" "arm" ⟨[]⟩).2.1.read
        0).map Events.event_info =
      some { locale := "en-us", os := "linux", os_version := "app",
             device := "1.0", arch := "arm", app_name := "default",
             app_version := "20160305", app_update_channel := "rust",
             app_build_id := "1.2.3", app_platform := "raspberry-pi" }) ∧
    (((MetricsController.new "app" "1.0" "default" "20160305" "rust"
        "en-us" "linux" "1.2.3" "raspberry-pi" "arm" ⟨[]⟩).2.1.read
        0).map Events.event_info ≠
      some { locale := "en-us", os := "raspberry-pi", os_version := "arm",
             device := "linux", arch := "1.2.3", app_name := "app",
             app_version := "1.0", app_update_channel := "default",
             app_build_id := "20160305", app_platform := "rust" }) := by
  constructor
  · rfl
  · decide

/-- C2: FAILS on the code. `start_metrics` is a stub whose body is the
literal `true`; it consults no running/opted-out state, so the second of
two consecutive calls on a fresh controller also returns `true`, not
`false` as the claim states. -/
theorem C2_second_start_also_returns_true :
    (let out := MetricsController.new "app" "1.0" "default" "20160305"
      "rust" "en-us" "linux" "1.2.3" "raspberry-pi" "arm" ⟨[]⟩
    let r1 := out.1.start_metrics out.2.1
    let r2 := r1.2.1.start_metrics r1.2.2.1
    r1.1 = true ∧ r2.1 = true) := by
  exact ⟨rfl, rfl⟩

/-- C3: FAILS on the code. `stop_collecting` only calls `self.mw.quit()`;
its own doc comment says it "deletes metrics data that has been collected
but not sent to the server" and its TODO admits the deletion is missing.
On a running controller whose shared Events cell holds an unflushed
histogram count, the quit is requested (worker ends `Stopped`) but the
collected data is fully retained afterwards. -/
theorem C3_stop_retains_unflushed_data :
    (let out := MetricsController.new "app" "1.0" "default" "20160305"
      "rust" "en-us" "linux" "1.2.3" "raspberry-pi" "arm" ⟨[]⟩
    let mc : MetricsController :=
      { out.1 with mw := { out.1.mw with status := WorkerStatus.Running } }
    let s1 := out.2.1.write mc.ev
      { event_info := EventInfo.new "en-us" "linux" "app" "1.0" "default"
          "20160305" "rust" "1.2.3" "raspberry-pi" "arm"
        histograms := [5] }
    let r := mc.stop_collecting s1
    r.1.mw.status = WorkerStatus.Stopped ∧
      (r.2.1.read r.1.ev).map Events.histograms = some [5]) := by
  exact ⟨rfl, rfl⟩

/-- C4: FAILS on the code. The body of `start_metrics` performs no call at
all — in particular it never invokes the persistence collaborator's read
path — so no previously persisted histogram data is loaded on start; the
effect trace of every call is empty. -/
theorem C4_start_performs_no_persistence_read (mc : MetricsController)
    (s : Store) :
    (mc.start_metrics s).1 = true ∧
      Effect.persistRead ∉ (mc.start_metrics s).2.2.2 := by
  exact ⟨rfl, List.not_mem_nil _⟩

/-- C5: `MetricsController::new` is total on all ten strings (empty ones
included), performs no validation or rejection and no I/O beyond a log
line, and the bound Worker it constructs is in the `Idle` state. -/
theorem C5_new_succeeds_and_worker_idle (app_name app_version
    app_update_channel app_build_id app_platform locale device arch os
    os_version : String) (s : Store) :
    (MetricsController.new app_name app_version app_update_channel
        app_build_id app_platform locale device arch os os_version
        s).1.mw.status = WorkerStatus.Idle ∧
    (MetricsController.new app_name app_version app_update_channel
        app_build_id app_platform locale device arch os os_version
        s).2.2 = [Effect.logInfo "Creating Controller"] := by
  exact ⟨rfl, rfl⟩

/-- C6: on a freshly constructed, never-started controller,
`stop_collecting` returns (it is a total function), performs no effect,
and is a no-op: the worker (still `Idle`, so `quit` does nothing) and the
store are returned unchanged. -/
theorem C6_stop_on_fresh_controller_is_noop (app_name app_version
    app_update_channel app_build_id app_platform locale device arch os
    os_version : String) (s : Store) :
    (let out := MetricsController.new app_name app_version
      app_update_channel app_build_id app_platform locale device arch os
      os_version s
    out.1.stop_collecting out.2.1 = (out.1, out.2.1, [])) := by
  rfl

/-- C7: `EventInfo::clone` deep-copies every field via `String::clone`
(independent backing storage, no `Rc`/`Arc` sharing), and the copy equals
the original field by field on all ten string fields. -/
theorem C7_clone_equals_fieldwise (e : EventInfo) :
    e.clone.locale = e.locale ∧ e.clone.os = e.os ∧
    e.clone.os_version = e.os_version ∧ e.clone.device = e.device ∧
    e.clone.arch = e.arch ∧ e.clone.app_name = e.app_name ∧
    e.clone.app_version = e.app_version ∧
    e.clone.app_update_channel = e.app_update_channel ∧
    e.clone.app_build_id = e.app_build_id ∧
    e.clone.app_platform = e.app_platform := by
  exact ⟨rfl, rfl, rfl, rfl, rfl, rfl, rfl, rfl, rfl, rfl⟩

/-- C8: the EventContext is never mutated after construction: after any
sequence of public-interface operations (`start_metrics`,
`stop_collecting`) on a constructed controller, the EventContext stored in
the shared Events cell is exactly the one built at construction
(`EventInfo` itself exposes only `new` and the non-mutating `clone`). -/
theorem C8_event_info_never_mutated (app_name app_version
    app_update_channel app_build_id app_platform locale device arch os
    os_version : String) (s : Store) (ops : List ApiOp) :
    (let out := MetricsController.new app_name app_version
      app_update_channel app_build_id app_platform locale device arch os
      os_version s
    let fin := runOps out.1 out.2.1 ops
    (fin.2.read fin.1.ev).map Events.event_info =
      some (EventInfo.new locale device app_name app_version
        app_update_channel app_build_id app_platform arch os
        os_version)) := by
  have h := runOps_preserves ops
    (MetricsController.new app_name app_version app_update_channel
      app_build_id app_platform locale device arch os os_version s).1
    (MetricsController.new app_name app_version app_update_channel
      app_build_id app_platform locale device arch os os_version s).2.1
  simp only [h.1, h.2]
  have hr := Store.read_alloc s (Events.new (EventInfo.new locale device
    app_name app_version app_update_channel app_build_id app_platform arch
    os os_version))
  simpa [MetricsController.new] using congrArg (Option.map Events.event_info) hr

/-- C9: `MetricsController::new` stores the `Arc` handle in its `ev` field
and hands `events.clone()` — the same address — to `MetricsWorker::new`,
so the controller's handle and the worker's handle name the same shared
Events cell, and a write through the controller's handle is read back
through the worker's handle. -/
theorem C9_controller_and_worker_share_events (app_name app_version
    app_update_channel app_build_id app_platform locale device arch os
    os_version : String) (s : Store) :
    (let out := MetricsController.new app_name app_version
      app_update_channel app_build_id app_platform locale device arch os
      os_version s
    out.1.ev = out.1.mw.events ∧
      ∀ e : Events, (out.2.1.write out.1.ev e).read out.1.mw.events =
        some e) := by
  refine ⟨rfl, fun e => ?_⟩
  exact Store.read_write_self _ _ e (by
    simp [MetricsController.new, Store.alloc])

/-- C10: `start_metrics` is a pure frame: it returns `true` and leaves the
controller (events handle and worker alike) and the store untouched, with
an empty effect trace — no persistence read, no other side effect. -/
theorem C10_start_metrics_is_frame (mc : MetricsController) (s : Store) :
    mc.start_metrics s = (true, mc, s, []) := by
  rfl

end MetricsControllerSpec
